import Mathlib

/-!
# unwindprotect: relaying an R error through C++ stack unwinding

A shallow embedding of `src/pkg.cpp`.  The C++ functions of the file are
translated into computations over an explicit host state; the R API they
call (`Rprintf`, `PROTECT`, `UNPROTECT`, `R_MakeUnwindCont`,
`R_UnwindProtect`, `R_ContinueUnwind`, `Rf_error`, `Rf_eval`) is the host
side of the boundary and is modelled after its documented contract.

Control can leave a C++ call in four ways, and the embedding keeps them
apart because the program is about the difference between them:

* a normal return;
* a C++ exception, which unwinds the native stack (destructors run, `catch`
  clauses are tried in order);
* a `longjmp` of the host (an R error in flight), which skips C++
  destructors and `catch` clauses and is intercepted only by
  `R_UnwindProtect`;
* an abort of the process (a failed `assert`).
-/

namespace UnwindProtect

/-! ## Data model -/

/-- R objects, as far as this program tells them apart. -/
inductive SEXP where
  | R_NilValue
  | value (n : Int)
  | unwindCont (id : Nat)
  deriving DecidableEq, Repr

/-- A pending non-local transfer of the host.  `error msg` is an R error
carrying its condition message; `undefined` is what resuming a
continuation token that never recorded a jump amounts to. -/
inductive Jump where
  | error (msg : String)
  | undefined
  deriving DecidableEq, Repr

/-- Native exception objects, by what the two `catch` clauses of
`call_R_fun_w_unwind_protect` can tell of them.  A handler of type
`const T &` takes an object whose class is `T` or has `T` as a public,
unambiguous base; a private, protected or ambiguous base does not count, and
neither does an unrelated type such as `int`.

* `isSignaling`: the handler `const Exception_Signaling_R_error &` of line 79
  takes the object;
* `isStdException`: the handler `const std::exception &` of line 83 takes the
  object;
* `what`: the text of `what()`, for a class that has one;
* `tag`: tells apart classes the handlers treat alike. -/
structure CppException where
  isSignaling : Bool
  isStdException : Bool
  what : String
  tag : Nat
  deriving DecidableEq, Repr

/-- An object of the marker class of line 32 itself,
`struct Exception_Signaling_R_error : public std::exception {}`: both handlers
would take it, and `what()` is the one it inherits. -/
def CppException.Exception_Signaling_R_error : CppException :=
  { isSignaling := true, isStdException := true, what := "std::exception", tag := 0 }

/-- An object of a class that has the marker class as a public, unambiguous
base: the handler of line 79 takes it as it takes the marker. -/
def CppException.derived_signaling (what : String) : CppException :=
  { isSignaling := true, isStdException := true, what := what, tag := 1 }

/-- An object of `std::exception` or of a class that has it as a public,
unambiguous base and is unrelated to the marker class, such as
`std::runtime_error`. -/
def CppException.std_exception (what : String) : CppException :=
  { isSignaling := false, isStdException := true, what := what, tag := 0 }

/-- An object of a class that has `std::exception` only as a private,
protected or ambiguous base: neither handler takes it. -/
def CppException.inaccessible_std (what : String) : CppException :=
  { isSignaling := false, isStdException := false, what := what, tag := 0 }

/-- An object of a type unrelated to `std::exception`, such as the `int` of
`throw 42`: neither handler takes it. -/
def CppException.non_std (tag : Nat) : CppException :=
  { isSignaling := false, isStdException := false, what := "", tag := tag + 1 }

/-- Observable events: console output and the host entry points whose calls
the properties of the bridge are stated about. -/
inductive Event where
  | rprintf (text : String)
  | makeUnwindCont (id : Nat)
  | continueUnwind (token : SEXP)
  | rfError (message : String)
  deriving DecidableEq, Repr

/-- Host state: the event trace, the top of the pointer protection stack
(`R_PPStackTop`), the supply of fresh continuation tokens, and the jump
recorded in each continuation token. -/
structure Host where
  log : List Event
  R_PPStackTop : Nat
  nextToken : Nat
  conts : List (Nat × Jump)
  deriving DecidableEq, Repr

/-- How a call ends. -/
inductive Result (α : Type) where
  | ok (a : α)
  | cpp_exception (e : CppException)
  | longjmp (j : Jump)
  | abort
  deriving DecidableEq, Repr

/-- Computations of the embedding: a state transformer with a `Result`. -/
def M (α : Type) : Type := Host → Result α × Host

/-- Sequencing: every abrupt result of the first computation skips the rest. -/
def M.bind {α β : Type} (x : M α) (f : α → M β) : M β := fun s =>
  match x s with
  | (.ok a, s1) => f a s1
  | (.cpp_exception e, s1) => (.cpp_exception e, s1)
  | (.longjmp j, s1) => (.longjmp j, s1)
  | (.abort, s1) => (.abort, s1)

/-- Normal return. -/
def M.pure {α : Type} (a : α) : M α := fun s => (.ok a, s)

instance : Monad M where
  pure := M.pure
  bind := M.bind

/-- A host callable (an R closure taking no arguments), by what evaluating
a call to it does. -/
abbrev RFunction : Type := M SEXP

/-- Generic pointers of the C interface: `none` is `nullptr`. -/
abbrev VoidPtr : Type := Option Nat

/-! ## The host interface (R API)

The entry points of `R.h` and `Rinternals.h` that `src/pkg.cpp` calls.  Their
declarations and bodies belong to the host, not to the repository. -/

/-- Modelled from the spec: the host's console output `Rprintf` (declared in
`R.h`, absent from the sources), the channel of the construct/destruct log. -/
def Rprintf (text : String) : M Unit := fun s =>
  (.ok (), { s with log := s.log ++ [Event.rprintf text] })

/-- Modelled from the spec: the macro `PROTECT(x)` of `Rinternals.h` (absent
from the sources): pushes `x` on the protection stack and yields `x`. -/
def PROTECT (x : SEXP) : M SEXP := fun s =>
  (.ok x, { s with R_PPStackTop := s.R_PPStackTop + 1 })

/-- Modelled from the spec: the macro `UNPROTECT(n)` of `Rinternals.h` (absent
from the sources): pops `n` entries of the protection stack. -/
def UNPROTECT (n : Nat) : M Unit := fun s =>
  (.ok (), { s with R_PPStackTop := s.R_PPStackTop - n })

/-- Modelled from the spec: the host primitive `create_continuation_token`
(`R_MakeUnwindCont` of `Rinternals.h`, absent from the sources): a fresh opaque
token, no error conditions. -/
def R_MakeUnwindCont : M SEXP := fun s =>
  (.ok (SEXP.unwindCont s.nextToken),
   { s with log := s.log ++ [Event.makeUnwindCont s.nextToken],
            nextToken := s.nextToken + 1 })

/-- The jump recorded in a continuation token. -/
def recordedJump (conts : List (Nat × Jump)) : SEXP → Jump
  | .unwindCont id => (conts.lookup id).getD Jump.undefined
  | _ => Jump.undefined

/-- Records a jump in a continuation token. -/
def recordJump (conts : List (Nat × Jump)) (j : Jump) : SEXP → List (Nat × Jump)
  | .unwindCont id => (id, j) :: conts
  | _ => conts

/-- Modelled from the spec: the host primitive `reissue_unwind`
(`R_ContinueUnwind` of `Rinternals.h`, absent from the sources): never
returns, resumes the host's own error propagation, here the jump recorded in
the token. -/
def R_ContinueUnwind {α : Type} (cont : SEXP) : M α := fun s =>
  (.longjmp (recordedJump s.conts cont),
   { s with log := s.log ++ [Event.continueUnwind cont] })

/-- Modelled from the spec: the host primitive `report_error_to_host`
(`Rf_error` of `R.h`, absent from the sources): raises a host-level error
with the given message and does not return. -/
def Rf_error {α : Type} (message : String) : M α := fun s =>
  (.longjmp (Jump.error message),
   { s with log := s.log ++ [Event.rfError message] })

/-- Modelled from the spec: the host primitive `run_with_unwind_protection`
(`R_UnwindProtect` of `Rinternals.h`, absent from the sources).  It calls
`body`; if no error occurs it returns the result of `body` normally, after
the callback has been called with `jump = FALSE`, as the R API does.  If a
host error begins during that call it calls the callback with `jump = TRUE`
before continuing the host's own abrupt termination, and never returns to
its caller.  On that path the host has recorded the jump in the token and
has reset the protection stack top to its value on entry, as every R
context does.  A C++ exception is no concern of this C function and passes
through it. -/
def R_UnwindProtect (body : M SEXP) (cleanfun : Bool → M Unit) (cont : SEXP) : M SEXP :=
  fun s =>
    match body s with
    | (.ok result, s1) =>
      match cleanfun false s1 with
      | (.ok (), s2) => (.ok result, s2)
      | (.cpp_exception e, s2) => (.cpp_exception e, s2)
      | (.longjmp j, s2) => (.longjmp j, s2)
      | (.abort, s2) => (.abort, s2)
    | (.longjmp j, s1) =>
      let s1r : Host :=
        { s1 with R_PPStackTop := s.R_PPStackTop, conts := recordJump s1.conts j cont }
      match cleanfun true s1r with
      | (.ok (), s2) => R_ContinueUnwind cont s2
      | (.cpp_exception e, s2) => (.cpp_exception e, s2)
      | (.longjmp k, s2) => (.longjmp k, s2)
      | (.abort, s2) => (.abort, s2)
    | (.cpp_exception e, s1) => (.cpp_exception e, s1)
    | (.abort, s1) => (.abort, s1)

/-- Modelled from the spec: the host's evaluator `Rf_eval` (declared in
`Rinternals.h`, absent from the sources) applied to the call expression
`do.call(R_fun, list())`: evaluates the callable with no arguments in the
host's execution context and yields whatever it produces. -/
def Rf_eval (R_fun : RFunction) : M SEXP := R_fun

/-! ## C++ control constructs -/

/-- A block scope owning one automatic object: the constructor runs on
entry; the destructor runs when the block is left by a return or by a C++
exception, and is skipped when the block is left by a host `longjmp` or an
abort. -/
def block_scope {α : Type} (ctor dtor : M Unit) (block : M α) : M α := fun s =>
  match ctor s with
  | (.ok (), s1) =>
    match block s1 with
    | (.ok a, s2) =>
      match dtor s2 with
      | (.ok (), s3) => (.ok a, s3)
      | (.cpp_exception e, s3) => (.cpp_exception e, s3)
      | (.longjmp j, s3) => (.longjmp j, s3)
      | (.abort, s3) => (.abort, s3)
    | (.cpp_exception e, s2) =>
      match dtor s2 with
      | (.ok (), s3) => (.cpp_exception e, s3)
      | (.cpp_exception _, s3) => (.abort, s3)
      | (.longjmp j, s3) => (.longjmp j, s3)
      | (.abort, s3) => (.abort, s3)
    | (.longjmp j, s2) => (.longjmp j, s2)
    | (.abort, s2) => (.abort, s2)
  | (.cpp_exception e, s1) => (.cpp_exception e, s1)
  | (.longjmp j, s1) => (.longjmp j, s1)
  | (.abort, s1) => (.abort, s1)

/-- A `try` block with its `catch` clauses: `handler e` is the body of the
first clause matching `e`, or `none` when no clause matches and the
exception propagates.  A normal result `some a` is a `return a` inside the
`try` block; `none` after a handler means control falls off the end of the
statement. -/
def try_catch {α : Type} (block : M α) (handler : CppException → Option (M Unit)) :
    M (Option α) := fun s =>
  match block s with
  | (.ok a, s1) => (.ok (some a), s1)
  | (.cpp_exception e, s1) =>
    match handler e with
    | some h =>
      match h s1 with
      | (.ok (), s2) => (.ok none, s2)
      | (.cpp_exception e2, s2) => (.cpp_exception e2, s2)
      | (.longjmp j, s2) => (.longjmp j, s2)
      | (.abort, s2) => (.abort, s2)
    | none => (.cpp_exception e, s1)
  | (.longjmp j, s1) => (.longjmp j, s1)
  | (.abort, s1) => (.abort, s1)

/-! ## The program (`src/pkg.cpp`) -/

/-- Message of the constructor, line 12. -/
def msgConstructed : String := "C++ custom object is being constructed.\n"
/-- Message of the destructor, line 15. -/
def msgDestructed : String := "C++ custom object is being destructed.\n"
/-- Message of the translator callback, line 40. -/
def msgConverting : String := "Converting R error to C++ exception\n"
/-- Message before the evaluation, line 51. -/
def msgWillCall : String := "Will call supplied R function\n"
/-- Message after the evaluation, line 53. -/
def msgDone : String := "Done with call to R function\n"
/-- Message of the fallback after the catch clauses, line 89. -/
def msgUnreachable : String := "Unreachable code section - you should not be seeing this.\n"

/-- The text `Rf_error("A C++ exception ocurred: %s\n", what)` reports, line 85. -/
def nativeFaultMessage (what : String) : String :=
  "A C++ exception ocurred: " ++ what ++ "\n"

/-- Constructor `CustomCppClass::CustomCppClass()`, lines 11-13. -/
def CustomCppClass.ctor : M Unit := Rprintf msgConstructed

/-- Destructor `CustomCppClass::~CustomCppClass()`, lines 14-16. -/
def CustomCppClass.dtor : M Unit := Rprintf msgDestructed

/-- Translator callback, lines 34-43. -/
def throw_exception_from_R_error (unused : VoidPtr) (jump : Bool) : M Unit := fun s =>
  if unused ≠ none then (.abort, s)
  else if jump then
    match Rprintf msgConverting s with
    | (.ok (), s1) => (.cpp_exception CppException.Exception_Signaling_R_error, s1)
    | other => other
  else (.ok (), s)

/-- Guarded invoker, lines 45-56.  The three objects of the call expression
(`Rf_install`, `Rf_allocVector`, `Rf_lang3`, assumed to succeed) are only
counted on the protection stack. -/
def wrapped_R_function_call (R_fun : RFunction) : M SEXP := do
  let _R_expr_do_call ← PROTECT SEXP.R_NilValue
  let _R_empty_list ← PROTECT SEXP.R_NilValue
  let _R_expr_fun_call ← PROTECT SEXP.R_NilValue
  Rprintf msgWillCall
  let r ← Rf_eval R_fun
  let fun_result ← PROTECT r
  Rprintf msgDone
  UNPROTECT 4
  pure fun_result

/-- Registration with the unwind-protection primitive, lines 58-65. -/
def safe_R_function_call (R_fun : RFunction) (continuation_token : SEXP) : M SEXP :=
  R_UnwindProtect (wrapped_R_function_call R_fun)
    (throw_exception_from_R_error none) continuation_token

/-- The `try` block of the coordinator, lines 72-77. -/
def try_block (R_fun : RFunction) (continuation_token : SEXP) : M SEXP :=
  block_scope CustomCppClass.ctor CustomCppClass.dtor (do
    let out ← PROTECT (← safe_R_function_call R_fun continuation_token)
    UNPROTECT 2
    pure out)

/-- The `catch` clauses of the coordinator in source order, lines 79-86: the
body of the first clause whose handler takes the exception object; a handler
takes an object whose class is its type or has it as a public, unambiguous
base. -/
def catch_clauses (continuation_token : SEXP) (ex : CppException) : Option (M Unit) :=
  if ex.isSignaling then some (R_ContinueUnwind continuation_token)
  else if ex.isStdException then some (Rf_error (nativeFaultMessage ex.what))
  else none

/-- The code after the catch clauses, lines 88-91. -/
def fallback_tail : M SEXP := do
  Rprintf msgUnreachable
  UNPROTECT 1
  pure SEXP.R_NilValue

/-- The frame of the coordinator around an arbitrary `try` block: lines 71,
72 and 78-92. -/
def protection_frame (block : SEXP → M SEXP) : M SEXP := do
  let continuation_token ← PROTECT (← R_MakeUnwindCont)
  match ← try_catch (block continuation_token) (catch_clauses continuation_token) with
  | some out => pure out
  | none => fallback_tail

/-- Protection coordinator, lines 69-92. -/
def call_R_fun_w_unwind_protect (R_fun : RFunction) : M SEXP :=
  protection_frame (try_block R_fun)

/-- The unprotected variant, lines 94-98. -/
def call_R_fun_wo_unwind_protect (R_fun : RFunction) : M SEXP :=
  block_scope CustomCppClass.ctor CustomCppClass.dtor (wrapped_R_function_call R_fun)

/-! ## Stating devices -/

/-- A callable that returns `v` and does nothing else: `function() v`. -/
def returning (v : SEXP) : RFunction := fun s => (.ok v, s)

/-- A callable that raises an R error: `function() stop(msg)`. -/
def stopping (msg : String) : RFunction := fun s => (.longjmp (Jump.error msg), s)

/-- A callable through which a C++ exception surfaces. -/
def throwing (e : CppException) : RFunction := fun s => (.cpp_exception e, s)

/-- The initial host state of the examples. -/
def Host.init : Host := { log := [], R_PPStackTop := 0, nextToken := 0, conts := [] }

/-- Is the event a call of `R_ContinueUnwind`? -/
def Event.isContinueUnwind : Event → Bool
  | .continueUnwind _ => true
  | _ => false

/-- Is the event a call of `Rf_error`? -/
def Event.isRfError : Event → Bool
  | .rfError _ => true
  | _ => false

/-- The continuation token a coordinator entered in `s` obtains from
`R_MakeUnwindCont` on line 71. -/
def ownToken (s : Host) : SEXP := SEXP.unwindCont s.nextToken

/-- The host state in which a coordinator entered in `s` enters its `try`
block: line 71 has run. -/
def stateAtTry (s : Host) : Host :=
  { s with log := s.log ++ [Event.makeUnwindCont s.nextToken],
           R_PPStackTop := s.R_PPStackTop + 1,
           nextToken := s.nextToken + 1 }

/-- The host state in which `wrapped_R_function_call`, entered in `s`,
evaluates the callable: lines 48-51 have run. -/
def stateAtEval (s : Host) : Host :=
  { s with log := s.log ++ [Event.rprintf msgWillCall],
           R_PPStackTop := s.R_PPStackTop + 3 }

/-- The host state in which a coordinator entered in `s` evaluates its
callable: lines 71, 73 and 48-51 have run. -/
def stateAtCall (s : Host) : Host :=
  { s with log := s.log ++ [Event.makeUnwindCont s.nextToken, Event.rprintf msgConstructed,
                            Event.rprintf msgWillCall],
           R_PPStackTop := s.R_PPStackTop + 4,
           nextToken := s.nextToken + 1 }

/-- The host state in which a coordinator entered in `s` enters
`R_UnwindProtect`: lines 71 and 73 have run. -/
def stateAtProtect (s : Host) : Host :=
  { s with log := s.log ++ [Event.makeUnwindCont s.nextToken, Event.rprintf msgConstructed],
           R_PPStackTop := s.R_PPStackTop + 1,
           nextToken := s.nextToken + 1 }

/-! ## Lemmas on the control flow -/

theorem bind_def {α β : Type} (x : M α) (f : α → M β) : (x >>= f) = M.bind x f := rfl

theorem pure_def {α : Type} (a : α) : (pure a : M α) = M.pure a := rfl

/-- The guarded invoker on a callable that returns. -/
theorem wrapped_ok (R_fun : RFunction) (s s2 : Host) (V : SEXP)
    (h : R_fun (stateAtEval s) = (.ok V, s2)) :
    wrapped_R_function_call R_fun s =
      (.ok V, { s2 with log := s2.log ++ [Event.rprintf msgDone],
                        R_PPStackTop := s2.R_PPStackTop + 1 - 4 }) := by
  simp only [wrapped_R_function_call, bind_def, pure_def, M.bind, M.pure, PROTECT, Rprintf,
    Rf_eval, UNPROTECT, stateAtEval] at h ⊢
  rw [h]

/-- The guarded invoker on a callable that raises a host error. -/
theorem wrapped_longjmp (R_fun : RFunction) (s s2 : Host) (j : Jump)
    (h : R_fun (stateAtEval s) = (.longjmp j, s2)) :
    wrapped_R_function_call R_fun s = (.longjmp j, s2) := by
  simp only [wrapped_R_function_call, bind_def, pure_def, M.bind, M.pure, PROTECT, Rprintf,
    Rf_eval, UNPROTECT, stateAtEval] at h ⊢
  rw [h]

/-- The guarded invoker on a callable through which a C++ exception surfaces. -/
theorem wrapped_cpp (R_fun : RFunction) (s s2 : Host) (e : CppException)
    (h : R_fun (stateAtEval s) = (.cpp_exception e, s2)) :
    wrapped_R_function_call R_fun s = (.cpp_exception e, s2) := by
  simp only [wrapped_R_function_call, bind_def, pure_def, M.bind, M.pure, PROTECT, Rprintf,
    Rf_eval, UNPROTECT, stateAtEval] at h ⊢
  rw [h]

/-- The guarded invoker on a callable that aborts the process. -/
theorem wrapped_abort (R_fun : RFunction) (s s2 : Host)
    (h : R_fun (stateAtEval s) = (.abort, s2)) :
    wrapped_R_function_call R_fun s = (.abort, s2) := by
  simp only [wrapped_R_function_call, bind_def, pure_def, M.bind, M.pure, PROTECT, Rprintf,
    Rf_eval, UNPROTECT, stateAtEval] at h ⊢
  rw [h]

theorem stateAtCall_eq (s : Host) : stateAtCall s = stateAtEval (stateAtProtect s) := by
  simp [stateAtCall, stateAtEval, stateAtProtect]

/-- The states named above are the ones the code reaches: line 71 takes `s`
to `stateAtTry s` and yields `ownToken s`; the constructor of line 73 takes
that to `stateAtProtect s`; lines 48-51 take a state to its `stateAtEval`. -/
theorem states_reached (s : Host) :
    (R_MakeUnwindCont >>= PROTECT) s = (.ok (ownToken s), stateAtTry s)
    ∧ CustomCppClass.ctor (stateAtTry s) = (.ok (), stateAtProtect s)
    ∧ (do let _ ← PROTECT SEXP.R_NilValue
          let _ ← PROTECT SEXP.R_NilValue
          let _ ← PROTECT SEXP.R_NilValue
          Rprintf msgWillCall) s = (.ok (), stateAtEval s) := by
  refine ⟨?_, ?_, ?_⟩ <;>
    simp [bind_def, M.bind, R_MakeUnwindCont, PROTECT, Rprintf, CustomCppClass.ctor,
      ownToken, stateAtTry, stateAtProtect, stateAtEval]

/-- The coordinator on a callable that returns. -/
theorem call_ok (R_fun : RFunction) (s s2 : Host) (V : SEXP)
    (h : R_fun (stateAtCall s) = (.ok V, s2)) :
    call_R_fun_w_unwind_protect R_fun s =
      (.ok V, { s2 with log := s2.log ++ [Event.rprintf msgDone, Event.rprintf msgDestructed],
                        R_PPStackTop := s2.R_PPStackTop + 1 - 4 + 1 - 2 }) := by
  rw [stateAtCall_eq] at h
  have hw := wrapped_ok R_fun _ s2 V h
  simp only [stateAtProtect] at hw
  simp only [call_R_fun_w_unwind_protect, protection_frame, try_catch, try_block, block_scope,
    safe_R_function_call, R_UnwindProtect, throw_exception_from_R_error,
    CustomCppClass.ctor, CustomCppClass.dtor, R_MakeUnwindCont,
    bind_def, pure_def, M.bind, M.pure, PROTECT, Rprintf, UNPROTECT,
    List.append_assoc, List.singleton_append]
  simp [hw, M.pure]

/-- The coordinator on a callable that raises a host error. -/
theorem call_longjmp (R_fun : RFunction) (s s2 : Host) (j : Jump)
    (h : R_fun (stateAtCall s) = (.longjmp j, s2)) :
    call_R_fun_w_unwind_protect R_fun s =
      (.longjmp j,
       { s2 with log := s2.log ++ [Event.rprintf msgConverting, Event.rprintf msgDestructed,
                                   Event.continueUnwind (ownToken s)],
                 R_PPStackTop := s.R_PPStackTop + 1,
                 conts := (s.nextToken, j) :: s2.conts }) := by
  rw [stateAtCall_eq] at h
  have hw := wrapped_longjmp R_fun _ s2 j h
  simp only [stateAtProtect] at hw
  simp only [call_R_fun_w_unwind_protect, protection_frame, try_catch, try_block, block_scope,
    safe_R_function_call, R_UnwindProtect, throw_exception_from_R_error,
    CustomCppClass.ctor, CustomCppClass.dtor, R_MakeUnwindCont,
    bind_def, pure_def, M.bind, M.pure, PROTECT, Rprintf, UNPROTECT,
    List.append_assoc, List.singleton_append]
  simp [hw, catch_clauses, CppException.Exception_Signaling_R_error, R_ContinueUnwind,
    recordJump, recordedJump, ownToken]

/-- The coordinator on a callable through which an exception surfaces that
the first catch clause takes. -/
theorem call_cpp_first (R_fun : RFunction) (s s2 : Host) (e : CppException)
    (h : R_fun (stateAtCall s) = (.cpp_exception e, s2))
    (hfirst : e.isSignaling = true) :
    call_R_fun_w_unwind_protect R_fun s =
      (.longjmp (recordedJump s2.conts (ownToken s)),
       { s2 with log := s2.log ++ [Event.rprintf msgDestructed,
                                   Event.continueUnwind (ownToken s)] }) := by
  rw [stateAtCall_eq] at h
  have hw := wrapped_cpp R_fun _ s2 _ h
  simp only [stateAtProtect] at hw
  simp only [call_R_fun_w_unwind_protect, protection_frame, try_catch, try_block, block_scope,
    safe_R_function_call, R_UnwindProtect, throw_exception_from_R_error,
    CustomCppClass.ctor, CustomCppClass.dtor, R_MakeUnwindCont,
    bind_def, pure_def, M.bind, M.pure, PROTECT, Rprintf, UNPROTECT,
    List.append_assoc, List.singleton_append]
  simp [hw, catch_clauses, hfirst, R_ContinueUnwind, ownToken]

/-- The coordinator on a callable through which an exception surfaces that
the second catch clause takes and the first does not. -/
theorem call_cpp_second (R_fun : RFunction) (s s2 : Host) (e : CppException)
    (h : R_fun (stateAtCall s) = (.cpp_exception e, s2))
    (hfirst : e.isSignaling = false) (hsecond : e.isStdException = true) :
    call_R_fun_w_unwind_protect R_fun s =
      (.longjmp (Jump.error (nativeFaultMessage e.what)),
       { s2 with log := s2.log ++ [Event.rprintf msgDestructed,
                                   Event.rfError (nativeFaultMessage e.what)] }) := by
  rw [stateAtCall_eq] at h
  have hw := wrapped_cpp R_fun _ s2 _ h
  simp only [stateAtProtect] at hw
  simp only [call_R_fun_w_unwind_protect, protection_frame, try_catch, try_block, block_scope,
    safe_R_function_call, R_UnwindProtect, throw_exception_from_R_error,
    CustomCppClass.ctor, CustomCppClass.dtor, R_MakeUnwindCont,
    bind_def, pure_def, M.bind, M.pure, PROTECT, Rprintf, UNPROTECT,
    List.append_assoc, List.singleton_append]
  simp [hw, catch_clauses, hfirst, hsecond, Rf_error]

/-- The coordinator on a callable through which an exception surfaces that
neither catch clause takes. -/
theorem call_cpp_neither (R_fun : RFunction) (s s2 : Host) (e : CppException)
    (h : R_fun (stateAtCall s) = (.cpp_exception e, s2))
    (hfirst : e.isSignaling = false) (hsecond : e.isStdException = false) :
    call_R_fun_w_unwind_protect R_fun s =
      (.cpp_exception e, { s2 with log := s2.log ++ [Event.rprintf msgDestructed] }) := by
  rw [stateAtCall_eq] at h
  have hw := wrapped_cpp R_fun _ s2 _ h
  simp only [stateAtProtect] at hw
  simp only [call_R_fun_w_unwind_protect, protection_frame, try_catch, try_block, block_scope,
    safe_R_function_call, R_UnwindProtect, throw_exception_from_R_error,
    CustomCppClass.ctor, CustomCppClass.dtor, R_MakeUnwindCont,
    bind_def, pure_def, M.bind, M.pure, PROTECT, Rprintf, UNPROTECT,
    List.append_assoc, List.singleton_append]
  simp [hw, catch_clauses, hfirst, hsecond]

/-- The coordinator on a callable through which another exception derived
from `std::exception` surfaces. -/
theorem call_cpp_std (R_fun : RFunction) (s s2 : Host) (w : String)
    (h : R_fun (stateAtCall s) = (.cpp_exception (.std_exception w), s2)) :
    call_R_fun_w_unwind_protect R_fun s =
      (.longjmp (Jump.error (nativeFaultMessage w)),
       { s2 with log := s2.log ++ [Event.rprintf msgDestructed,
                                   Event.rfError (nativeFaultMessage w)] }) :=
  call_cpp_second R_fun s s2 _ h rfl rfl

/-- The coordinator on a callable that aborts the process. -/
theorem call_abort (R_fun : RFunction) (s s2 : Host)
    (h : R_fun (stateAtCall s) = (.abort, s2)) :
    call_R_fun_w_unwind_protect R_fun s = (.abort, s2) := by
  rw [stateAtCall_eq] at h
  have hw := wrapped_abort R_fun _ s2 h
  simp only [stateAtProtect] at hw
  simp only [call_R_fun_w_unwind_protect, protection_frame, try_catch, try_block, block_scope,
    safe_R_function_call, R_UnwindProtect, throw_exception_from_R_error,
    CustomCppClass.ctor, CustomCppClass.dtor, R_MakeUnwindCont,
    bind_def, pure_def, M.bind, M.pure, PROTECT, Rprintf, UNPROTECT,
    List.append_assoc, List.singleton_append]
  simp [hw]

/-! ## The clean path and the unwind path -/

/-- C1 (clean path): when the callable, evaluated where the coordinator
evaluates it, completes with value `V` after logging `evs`, the coordinator
returns exactly `V`; its trace is the token creation, the construct entry,
the invoker's announcement, the callable's events, the invoker's completion
message and the destruct entry last; the coordinator itself logs exactly one
construct and one destruct entry, and no re-issue, no `Rf_error` and no
translation of an error beyond what the callable logged. -/
theorem clean_path (R_fun : RFunction) (s s2 : Host) (V : SEXP) (evs : List Event)
    (h : R_fun (stateAtCall s) = (.ok V, s2))
    (hlog : s2.log = (stateAtCall s).log ++ evs) :
    call_R_fun_w_unwind_protect R_fun s =
      (.ok V,
       { s2 with
         log := s.log ++ ([Event.makeUnwindCont s.nextToken, Event.rprintf msgConstructed,
                           Event.rprintf msgWillCall] ++ evs ++
                          [Event.rprintf msgDone, Event.rprintf msgDestructed]),
         R_PPStackTop := s2.R_PPStackTop + 1 - 4 + 1 - 2 })
    ∧ ([Event.makeUnwindCont s.nextToken, Event.rprintf msgConstructed,
        Event.rprintf msgWillCall] ++ evs ++
       [Event.rprintf msgDone, Event.rprintf msgDestructed]).count
        (Event.rprintf msgConstructed) = 1 + evs.count (Event.rprintf msgConstructed)
    ∧ ([Event.makeUnwindCont s.nextToken, Event.rprintf msgConstructed,
        Event.rprintf msgWillCall] ++ evs ++
       [Event.rprintf msgDone, Event.rprintf msgDestructed]).count
        (Event.rprintf msgDestructed) = evs.count (Event.rprintf msgDestructed) + 1
    ∧ ∀ e ∈ [Event.makeUnwindCont s.nextToken, Event.rprintf msgConstructed,
             Event.rprintf msgWillCall] ++ evs ++
            [Event.rprintf msgDone, Event.rprintf msgDestructed],
        (e.isContinueUnwind = true ∨ e.isRfError = true ∨ e = Event.rprintf msgConverting) →
          e ∈ evs := by
  refine ⟨?_, ?_, ?_, ?_⟩
  · rw [call_ok R_fun s s2 V h, hlog]
    simp [stateAtCall]
  · simp [List.count_cons, msgConstructed, msgWillCall, msgDone, msgDestructed]
    omega
  · simp [List.count_cons, msgConstructed, msgWillCall, msgDone, msgDestructed]
  · intro e he hc
    simp only [List.mem_append, List.mem_cons, List.mem_singleton, List.not_mem_nil,
      or_false] at he
    rcases he with ((he | he | he) | he) | he | he
    all_goals first
      | exact he
      | (subst he
         simp [Event.isContinueUnwind, Event.isRfError, msgConstructed, msgWillCall, msgDone,
           msgDestructed, msgConverting] at hc)

/-- C2 (unwind path): when the callable, evaluated where the coordinator
evaluates it, raises a host error after logging `evs`, the trace of the
coordinator is: construct entry (then the callable's events), the message of
the translator callback called with `jump = TRUE`, the destruct entry, and
`R_ContinueUnwind` last.  The coordinator logs the destruct entry exactly
once beyond the callable's own, and never logs the completion message of the
invoker. -/
theorem unwind_path (R_fun : RFunction) (s s2 : Host) (j : Jump) (evs : List Event)
    (h : R_fun (stateAtCall s) = (.longjmp j, s2))
    (hlog : s2.log = (stateAtCall s).log ++ evs) :
    call_R_fun_w_unwind_protect R_fun s =
      (.longjmp j,
       { s2 with
         log := s.log ++ ([Event.makeUnwindCont s.nextToken, Event.rprintf msgConstructed,
                           Event.rprintf msgWillCall] ++ evs ++
                          [Event.rprintf msgConverting, Event.rprintf msgDestructed,
                           Event.continueUnwind (ownToken s)]),
         R_PPStackTop := s.R_PPStackTop + 1,
         conts := (s.nextToken, j) :: s2.conts })
    ∧ throw_exception_from_R_error none true
        { s2 with R_PPStackTop := s.R_PPStackTop + 1,
                  conts := (s.nextToken, j) :: s2.conts } =
        (.cpp_exception CppException.Exception_Signaling_R_error,
         { s2 with log := s2.log ++ [Event.rprintf msgConverting],
                   R_PPStackTop := s.R_PPStackTop + 1,
                   conts := (s.nextToken, j) :: s2.conts })
    ∧ ([Event.makeUnwindCont s.nextToken, Event.rprintf msgConstructed,
        Event.rprintf msgWillCall] ++ evs ++
       [Event.rprintf msgConverting, Event.rprintf msgDestructed,
        Event.continueUnwind (ownToken s)]).count (Event.rprintf msgDestructed) =
        evs.count (Event.rprintf msgDestructed) + 1
    ∧ (Event.rprintf msgDone ∈
        [Event.makeUnwindCont s.nextToken, Event.rprintf msgConstructed,
         Event.rprintf msgWillCall] ++ evs ++
        [Event.rprintf msgConverting, Event.rprintf msgDestructed,
         Event.continueUnwind (ownToken s)] → Event.rprintf msgDone ∈ evs) := by
  refine ⟨?_, ?_, ?_, ?_⟩
  · rw [call_longjmp R_fun s s2 j h, hlog]
    simp [stateAtCall]
  · simp [throw_exception_from_R_error, Rprintf]
  · simp [List.count_cons, msgConstructed, msgWillCall, msgConverting, msgDestructed]
  · simp [msgConstructed, msgWillCall, msgConverting, msgDestructed, msgDone]

/-- The events a coordinator logs after the evaluation of its callable, for
every behaviour of the callable. -/
theorem call_after_eval (R_fun : RFunction) (s : Host) :
    ∃ post : List Event,
      (call_R_fun_w_unwind_protect R_fun s).2.log = (R_fun (stateAtCall s)).2.log ++ post ∧
      (post = [Event.rprintf msgDone, Event.rprintf msgDestructed] ∨
       post = [Event.rprintf msgConverting, Event.rprintf msgDestructed,
               Event.continueUnwind (ownToken s)] ∨
       post = [Event.rprintf msgDestructed, Event.continueUnwind (ownToken s)] ∨
       (∃ w, post = [Event.rprintf msgDestructed, Event.rfError (nativeFaultMessage w)]) ∨
       post = [Event.rprintf msgDestructed] ∨
       post = []) := by
  rcases hR : R_fun (stateAtCall s) with ⟨r, s2⟩
  cases r with
  | ok V => exact ⟨_, by rw [call_ok R_fun s s2 V hR], Or.inl rfl⟩
  | longjmp j => exact ⟨_, by rw [call_longjmp R_fun s s2 j hR], Or.inr (Or.inl rfl)⟩
  | abort => exact ⟨[], by rw [call_abort R_fun s s2 hR]; simp, by simp⟩
  | cpp_exception e =>
    cases hfirst : e.isSignaling with
    | true =>
      exact ⟨_, by rw [call_cpp_first R_fun s s2 e hR hfirst], Or.inr (Or.inr (Or.inl rfl))⟩
    | false =>
      cases hsecond : e.isStdException with
      | true =>
        exact ⟨_, by rw [call_cpp_second R_fun s s2 e hR hfirst hsecond],
          Or.inr (Or.inr (Or.inr (Or.inl ⟨e.what, rfl⟩)))⟩
      | false =>
        exact ⟨_, by rw [call_cpp_neither R_fun s s2 e hR hfirst hsecond],
          Or.inr (Or.inr (Or.inr (Or.inr (Or.inl rfl))))⟩

/-- A normal return of the coordinator is the return of its callable. -/
theorem call_ok_inv (R_fun : RFunction) (s : Host) (v : SEXP)
    (h : (call_R_fun_w_unwind_protect R_fun s).1 = .ok v) :
    (R_fun (stateAtCall s)).1 = .ok v := by
  rcases hR : R_fun (stateAtCall s) with ⟨r, s2⟩
  cases r with
  | ok V => rw [call_ok R_fun s s2 V hR] at h; exact h
  | longjmp j => rw [call_longjmp R_fun s s2 j hR] at h; simp at h
  | abort => rw [call_abort R_fun s s2 hR] at h; simp at h
  | cpp_exception e =>
    cases hfirst : e.isSignaling with
    | true => rw [call_cpp_first R_fun s s2 e hR hfirst] at h; simp at h
    | false =>
      cases hsecond : e.isStdException with
      | true => rw [call_cpp_second R_fun s s2 e hR hfirst hsecond] at h; simp at h
      | false => rw [call_cpp_neither R_fun s s2 e hR hfirst hsecond] at h; simp at h

/-- C3 (single re-issue): whatever the callable does, the events the
coordinator logs once the evaluation of its callable has ended contain at
most one call of `R_ContinueUnwind`, and every such call has for argument the
token the coordinator obtained from `R_MakeUnwindCont` at entry; before the
evaluation it has logged the creation of that token and no re-issue. -/
theorem single_reissue (R_fun : RFunction) (s : Host) :
    (R_MakeUnwindCont s).1 = .ok (ownToken s)
    ∧ (stateAtCall s).log =
        s.log ++ [Event.makeUnwindCont s.nextToken, Event.rprintf msgConstructed,
                  Event.rprintf msgWillCall]
    ∧ ∃ post : List Event,
        (call_R_fun_w_unwind_protect R_fun s).2.log = (R_fun (stateAtCall s)).2.log ++ post ∧
        post.countP Event.isContinueUnwind ≤ 1 ∧
        ∀ token, Event.continueUnwind token ∈ post → token = ownToken s := by
  refine ⟨rfl, rfl, ?_⟩
  obtain ⟨post, hpost, hshape⟩ := call_after_eval R_fun s
  refine ⟨post, hpost, ?_, ?_⟩
  · rcases hshape with h | h | h | ⟨w, h⟩ | h | h <;> subst h <;>
      simp [List.countP_cons, Event.isContinueUnwind]
  · intro token hmem
    rcases hshape with h | h | h | ⟨w, h⟩ | h | h <;> subst h <;> simp at hmem <;> exact hmem

/-- The `try` block of a coordinator entered in `s`, on a callable that
raises a host error: the marker exception leaves the block after the
destructor has run. -/
theorem try_block_longjmp (R_fun : RFunction) (s s2 : Host) (j : Jump)
    (h : R_fun (stateAtCall s) = (.longjmp j, s2)) :
    try_block R_fun (ownToken s) (stateAtTry s) =
      (.cpp_exception CppException.Exception_Signaling_R_error,
       { s2 with log := s2.log ++ [Event.rprintf msgConverting, Event.rprintf msgDestructed],
                 R_PPStackTop := s.R_PPStackTop + 1,
                 conts := (s.nextToken, j) :: s2.conts }) := by
  rw [stateAtCall_eq] at h
  have hw := wrapped_longjmp R_fun _ s2 j h
  simp only [stateAtProtect] at hw
  simp only [try_block, block_scope, stateAtTry, ownToken,
    safe_R_function_call, R_UnwindProtect, throw_exception_from_R_error,
    CustomCppClass.ctor, CustomCppClass.dtor,
    bind_def, pure_def, M.bind, M.pure, PROTECT, Rprintf, UNPROTECT,
    List.append_assoc, List.singleton_append]
  simp [hw, recordJump]

/-! ## Error handling -/

/-- C4 (host errors are relayed): when the callable raises a host error `j`,
the coordinator ends in the host's unwind carrying that same `j`; the last
event is `R_ContinueUnwind` on its own token and it logs no `Rf_error`.  The
`try` block is left by the marker exception, which the generic clause
would match as well, and the clauses, tried in source order, select
the re-issue. -/
theorem host_error_relayed (R_fun : RFunction) (s s2 : Host) (j : Jump)
    (h : R_fun (stateAtCall s) = (.longjmp j, s2)) :
    (call_R_fun_w_unwind_protect R_fun s).1 = .longjmp j
    ∧ (call_R_fun_w_unwind_protect R_fun s).2.log =
        s2.log ++ [Event.rprintf msgConverting, Event.rprintf msgDestructed,
                   Event.continueUnwind (ownToken s)]
    ∧ [Event.rprintf msgConverting, Event.rprintf msgDestructed,
       Event.continueUnwind (ownToken s)].countP Event.isRfError = 0
    ∧ (try_block R_fun (ownToken s) (stateAtTry s)).1 =
        .cpp_exception CppException.Exception_Signaling_R_error
    ∧ CppException.Exception_Signaling_R_error.isStdException = true
    ∧ catch_clauses (ownToken s) CppException.Exception_Signaling_R_error =
        some (R_ContinueUnwind (ownToken s)) := by
  refine ⟨?_, ?_, ?_, ?_, rfl, rfl⟩
  · rw [call_longjmp R_fun s s2 j h]
  · rw [call_longjmp R_fun s s2 j h]
  · simp [List.countP_cons, Event.isRfError]
  · rw [try_block_longjmp R_fun s s2 j h]

/-- C5, as amended (native fault isolation): an exception leaves the `try`
block of the coordinator, whatever that block is, and the first catch clause
does not take it.  If the clause for `std::exception` takes it, the
coordinator ends by calling `Rf_error` exactly once, with a message that
carries the `what()` text, calls no `R_ContinueUnwind`, and the exception does
not escape: the call ends in the host error with that message.  If that
clause does not take it either, the exception leaves the coordinator as it
came and nothing more is logged, no `Rf_error` in particular. -/
theorem native_fault_reported (block : SEXP → M SEXP) (s s2 : Host) (e : CppException)
    (h : block (ownToken s) (stateAtTry s) = (.cpp_exception e, s2))
    (hfirst : e.isSignaling = false) :
    protection_frame block s =
      (if e.isStdException = true then
        (.longjmp (Jump.error (nativeFaultMessage e.what)),
         { s2 with log := s2.log ++ [Event.rfError (nativeFaultMessage e.what)] })
       else (.cpp_exception e, s2))
    ∧ [Event.rfError (nativeFaultMessage e.what)].countP Event.isRfError = 1
    ∧ [Event.rfError (nativeFaultMessage e.what)].countP Event.isContinueUnwind = 0
    ∧ ∃ before after : String, nativeFaultMessage e.what = before ++ e.what ++ after := by
  refine ⟨?_, ?_, ?_, ⟨_, _, rfl⟩⟩
  · simp only [stateAtTry, ownToken] at h
    simp only [protection_frame, try_catch, R_MakeUnwindCont,
      bind_def, pure_def, M.bind, M.pure, PROTECT]
    cases hsecond : e.isStdException <;>
      simp [h, catch_clauses, hfirst, hsecond, Rf_error]
  · simp [List.countP_cons, Event.isRfError]
  · simp [List.countP_cons, Event.isContinueUnwind]

/-- C6 (translator callback): called with a null pointer, the callback
throws the marker exception exactly when `jump` is true; with `jump` false it
returns normally and leaves the whole host state as it was; with `jump` true
its only effect before the throw is its message. -/
theorem translator_callback (jump : Bool) (s : Host) :
    ((throw_exception_from_R_error none jump s).1 =
        .cpp_exception CppException.Exception_Signaling_R_error ↔ jump = true)
    ∧ throw_exception_from_R_error none false s = (.ok (), s)
    ∧ throw_exception_from_R_error none true s =
        (.cpp_exception CppException.Exception_Signaling_R_error,
         { s with log := s.log ++ [Event.rprintf msgConverting] }) := by
  refine ⟨?_, ?_, ?_⟩
  · cases jump <;> simp [throw_exception_from_R_error, Rprintf]
  · simp [throw_exception_from_R_error]
  · simp [throw_exception_from_R_error, Rprintf]

/-- C7 (guarded invoker): the invoker announces the call, evaluates the
callable with no arguments, and on a value `V` logs the completion message
and returns exactly `V`; on every abrupt termination of the callable it
yields that same termination in the state the callable left, with nothing
logged after the evaluation. -/
theorem guarded_invoker (R_fun : RFunction) (s : Host) :
    (stateAtEval s).log = s.log ++ [Event.rprintf msgWillCall]
    ∧ wrapped_R_function_call R_fun s =
        match R_fun (stateAtEval s) with
        | (.ok V, s2) =>
          (.ok V, { s2 with log := s2.log ++ [Event.rprintf msgDone],
                            R_PPStackTop := s2.R_PPStackTop + 1 - 4 })
        | (.cpp_exception e, s2) => (.cpp_exception e, s2)
        | (.longjmp j, s2) => (.longjmp j, s2)
        | (.abort, s2) => (.abort, s2) := by
  refine ⟨rfl, ?_⟩
  rcases hR : R_fun (stateAtEval s) with ⟨r, s2⟩
  cases r with
  | ok V => exact wrapped_ok R_fun s s2 V hR
  | cpp_exception e => exact wrapped_cpp R_fun s s2 e hR
  | longjmp j => exact wrapped_longjmp R_fun s s2 j hR
  | abort => exact wrapped_abort R_fun s s2 hR

/-! ## Nesting, the fallback and the protection stack -/

/-- C8 (nesting): the callable of the outer coordinator is a protected call
of `inner`, and `inner` raises a host error `j` after logging `evs`.  The
whole call ends in the host's unwind carrying `j`; the trace reads outer
construct, inner construct, (the events of `inner`), inner callback, inner
destruct, inner re-issue on the inner token, outer callback, outer destruct,
outer re-issue on the outer token; the outer `try` block is left by the
marker exception; the two tokens differ. -/
theorem nested_unwind (inner : RFunction) (s s2 : Host) (j : Jump) (evs : List Event)
    (h : inner (stateAtCall (stateAtCall s)) = (.longjmp j, s2))
    (hlog : s2.log = (stateAtCall (stateAtCall s)).log ++ evs) :
    call_R_fun_w_unwind_protect (call_R_fun_w_unwind_protect inner) s =
      (.longjmp j,
       { s2 with
         log := s.log ++ ([Event.makeUnwindCont s.nextToken, Event.rprintf msgConstructed,
                           Event.rprintf msgWillCall,
                           Event.makeUnwindCont (s.nextToken + 1),
                           Event.rprintf msgConstructed, Event.rprintf msgWillCall] ++ evs ++
                          [Event.rprintf msgConverting, Event.rprintf msgDestructed,
                           Event.continueUnwind (SEXP.unwindCont (s.nextToken + 1)),
                           Event.rprintf msgConverting, Event.rprintf msgDestructed,
                           Event.continueUnwind (SEXP.unwindCont s.nextToken)]),
         R_PPStackTop := s.R_PPStackTop + 1,
         conts := (s.nextToken, j) :: (s.nextToken + 1, j) :: s2.conts })
    ∧ (try_block (call_R_fun_w_unwind_protect inner) (ownToken s) (stateAtTry s)).1 =
        .cpp_exception CppException.Exception_Signaling_R_error
    ∧ ownToken s = SEXP.unwindCont s.nextToken
    ∧ ownToken (stateAtCall s) = SEXP.unwindCont (s.nextToken + 1)
    ∧ ownToken (stateAtCall s) ≠ ownToken s := by
  have hin := call_longjmp inner (stateAtCall s) s2 j h
  refine ⟨?_, ?_, rfl, rfl, ?_⟩
  · rw [call_longjmp _ s _ j hin, hlog]
    simp [stateAtCall, ownToken]
  · rw [try_block_longjmp _ s _ j hin]
  · simp [ownToken, stateAtCall]

/-- C9 (unreachable tail): `R_ContinueUnwind` and `Rf_error` always end in a
host jump, never in a return, and so, for every behaviour of the callable, the `try`
statement of the coordinator never completes by falling off a handler, so
the code after the catch clauses does not run: the coordinator logs no
fallback message after the evaluation of its callable, and whenever it
returns a value, that value is the one its callable returned. -/
theorem fallback_unreachable (R_fun : RFunction) (s : Host) :
    (∀ (token : SEXP) (st : Host), ∃ k st2,
        (R_ContinueUnwind token : M Unit) st = (.longjmp k, st2))
    ∧ (∀ (message : String) (st : Host), ∃ k st2,
        (Rf_error message : M Unit) st = (.longjmp k, st2))
    ∧ (∀ (token : SEXP) (st : Host),
        (try_catch (try_block R_fun token) (catch_clauses token) st).1 ≠ .ok none)
    ∧ (∃ post : List Event,
        (call_R_fun_w_unwind_protect R_fun s).2.log = (R_fun (stateAtCall s)).2.log ++ post ∧
        Event.rprintf msgUnreachable ∉ post)
    ∧ (∀ v, (call_R_fun_w_unwind_protect R_fun s).1 = .ok v →
        (R_fun (stateAtCall s)).1 = .ok v) := by
  refine ⟨fun token st => ⟨_, _, rfl⟩, fun message st => ⟨_, _, rfl⟩, ?_, ?_,
    fun v hv => call_ok_inv R_fun s v hv⟩
  · intro token st
    simp only [try_catch]
    rcases try_block R_fun token st with ⟨r, s1⟩
    cases r with
    | ok a => simp
    | longjmp k => simp
    | abort => simp
    | cpp_exception e =>
      cases hfirst : e.isSignaling <;> cases hsecond : e.isStdException <;>
        simp [catch_clauses, hfirst, hsecond, R_ContinueUnwind, Rf_error]
  · obtain ⟨post, hpost, hshape⟩ := call_after_eval R_fun s
    refine ⟨post, hpost, ?_⟩
    rcases hshape with h | h | h | ⟨w, h⟩ | h | h <;> subst h <;>
      simp [msgUnreachable, msgDone, msgDestructed, msgConverting]

/-- C10, as amended (protection stack on each exit path): the coordinator
pushes its token at entry.  On a normal return of a callable that left the
stack as it found it, the coordinator leaves the stack top as it found it.
On the re-issue path it performs no `UNPROTECT`: control leaves through
`R_ContinueUnwind` with the token still protected, one above the entry
depth.  On the native-fault path it performs no `UNPROTECT` either: the depth
at `Rf_error` is the depth at the throw. -/
theorem token_release_paths (s : Host) (f g k : RFunction) (V : SEXP) (j : Jump) (w : String)
    (s2 s3 s4 : Host)
    (hf : f (stateAtCall s) = (.ok V, s2))
    (hbal : s2.R_PPStackTop = (stateAtCall s).R_PPStackTop)
    (hg : g (stateAtCall s) = (.longjmp j, s3))
    (hk : k (stateAtCall s) = (.cpp_exception (.std_exception w), s4)) :
    (stateAtTry s).R_PPStackTop = s.R_PPStackTop + 1
    ∧ (call_R_fun_w_unwind_protect f s).2.R_PPStackTop = s.R_PPStackTop
    ∧ (call_R_fun_w_unwind_protect g s).2.R_PPStackTop = s.R_PPStackTop + 1
    ∧ (call_R_fun_w_unwind_protect k s).2.R_PPStackTop = s4.R_PPStackTop := by
  refine ⟨rfl, ?_, ?_, ?_⟩
  · rw [call_ok f s s2 V hf]
    simp only [stateAtCall] at hbal
    simp only [hbal]
    omega
  · rw [call_longjmp g s s3 j hg]
  · rw [call_cpp_std k s s4 w hk]

/-! ## Concrete runs -/

/-- C1 at a concrete input: `function() 7` from the initial host state. -/
theorem clean_path_witness :
    returning (SEXP.value 7) (stateAtCall Host.init) =
        (.ok (SEXP.value 7), stateAtCall Host.init)
    ∧ (stateAtCall Host.init).log = (stateAtCall Host.init).log ++ []
    ∧ call_R_fun_w_unwind_protect (returning (SEXP.value 7)) Host.init =
        (.ok (SEXP.value 7),
         { log := [Event.makeUnwindCont 0, Event.rprintf msgConstructed,
                   Event.rprintf msgWillCall, Event.rprintf msgDone,
                   Event.rprintf msgDestructed],
           R_PPStackTop := 0, nextToken := 1, conts := [] }) :=
  ⟨rfl, by simp, by
    rw [(clean_path (returning (SEXP.value 7)) Host.init (stateAtCall Host.init)
      (SEXP.value 7) [] rfl (by simp)).1]
    rfl⟩

/-- C2 at a concrete input: `function() stop("boom")` from the initial host
state. -/
theorem unwind_path_witness :
    stopping "boom" (stateAtCall Host.init) =
        (.longjmp (Jump.error "boom"), stateAtCall Host.init)
    ∧ (stateAtCall Host.init).log = (stateAtCall Host.init).log ++ []
    ∧ call_R_fun_w_unwind_protect (stopping "boom") Host.init =
        (.longjmp (Jump.error "boom"),
         { log := [Event.makeUnwindCont 0, Event.rprintf msgConstructed,
                   Event.rprintf msgWillCall, Event.rprintf msgConverting,
                   Event.rprintf msgDestructed,
                   Event.continueUnwind (SEXP.unwindCont 0)],
           R_PPStackTop := 1, nextToken := 1, conts := [(0, Jump.error "boom")] }) :=
  ⟨rfl, by simp, by
    rw [(unwind_path (stopping "boom") Host.init (stateAtCall Host.init)
      (Jump.error "boom") [] rfl (by simp)).1]
    rfl⟩

/-- C4 at a concrete input: the error of `function() stop("boom")` reaches
the caller as it was raised. -/
theorem host_error_relayed_witness :
    stopping "boom" (stateAtCall Host.init) =
        (.longjmp (Jump.error "boom"), stateAtCall Host.init)
    ∧ (call_R_fun_w_unwind_protect (stopping "boom") Host.init).1 =
        .longjmp (Jump.error "boom") :=
  ⟨rfl, (host_error_relayed (stopping "boom") Host.init (stateAtCall Host.init)
    (Jump.error "boom") rfl).1⟩

/-- C5 as stated fails, for types other than the marker class on either side
of the two clauses.  An `int` thrown inside the `try` region matches neither
clause; it escapes the coordinator and `Rf_error` is not called, whether it
surfaces through the callable or is thrown by the `try` block at once.  The
same holds of a class that has `std::exception` as a private base.  An object
of a class derived from the marker class is taken by the first clause: the
coordinator calls `R_ContinueUnwind`, not `Rf_error`. -/
theorem native_fault_counterexample :
    (call_R_fun_w_unwind_protect (throwing (CppException.non_std 42)) Host.init).1 =
        .cpp_exception (CppException.non_std 42)
    ∧ (call_R_fun_w_unwind_protect (throwing (CppException.non_std 42)) Host.init).2.log =
        [Event.makeUnwindCont 0, Event.rprintf msgConstructed, Event.rprintf msgWillCall,
         Event.rprintf msgDestructed]
    ∧ (call_R_fun_w_unwind_protect (throwing (CppException.non_std 42))
        Host.init).2.log.countP Event.isRfError = 0
    ∧ (protection_frame (fun _ => throwing (CppException.non_std 42)) Host.init).1 =
        .cpp_exception (CppException.non_std 42)
    ∧ (protection_frame (fun _ => throwing (CppException.non_std 42))
        Host.init).2.log.countP Event.isRfError = 0
    ∧ (call_R_fun_w_unwind_protect (throwing (CppException.inaccessible_std "hidden"))
        Host.init).1 = .cpp_exception (CppException.inaccessible_std "hidden")
    ∧ (call_R_fun_w_unwind_protect (throwing (CppException.inaccessible_std "hidden"))
        Host.init).2.log.countP Event.isRfError = 0
    ∧ (call_R_fun_w_unwind_protect (throwing (CppException.derived_signaling "derived"))
        Host.init).2.log =
        [Event.makeUnwindCont 0, Event.rprintf msgConstructed, Event.rprintf msgWillCall,
         Event.rprintf msgDestructed, Event.continueUnwind (SEXP.unwindCont 0)] := by
  decide

/-- C5 as amended, at concrete inputs: a `std::runtime_error` with `what()`
text `bad alloc` leaves the `try` block of the coordinator and is reported;
an `int` leaves it and escapes. -/
theorem native_fault_reported_witness :
    (try_block (throwing (CppException.std_exception "bad alloc")) (ownToken Host.init)
        (stateAtTry Host.init) =
      (.cpp_exception (CppException.std_exception "bad alloc"),
       { log := [Event.makeUnwindCont 0, Event.rprintf msgConstructed,
                 Event.rprintf msgWillCall, Event.rprintf msgDestructed],
         R_PPStackTop := 4, nextToken := 1, conts := [] })
     ∧ (CppException.std_exception "bad alloc").isSignaling = false
     ∧ call_R_fun_w_unwind_protect (throwing (CppException.std_exception "bad alloc"))
        Host.init =
      (.longjmp (Jump.error "A C++ exception ocurred: bad alloc\n"),
       { log := [Event.makeUnwindCont 0, Event.rprintf msgConstructed,
                 Event.rprintf msgWillCall, Event.rprintf msgDestructed,
                 Event.rfError "A C++ exception ocurred: bad alloc\n"],
         R_PPStackTop := 4, nextToken := 1, conts := [] }))
    ∧ (try_block (throwing (CppException.non_std 42)) (ownToken Host.init)
        (stateAtTry Host.init) =
      (.cpp_exception (CppException.non_std 42),
       { log := [Event.makeUnwindCont 0, Event.rprintf msgConstructed,
                 Event.rprintf msgWillCall, Event.rprintf msgDestructed],
         R_PPStackTop := 4, nextToken := 1, conts := [] })
     ∧ (CppException.non_std 42).isSignaling = false
     ∧ call_R_fun_w_unwind_protect (throwing (CppException.non_std 42)) Host.init =
      (.cpp_exception (CppException.non_std 42),
       { log := [Event.makeUnwindCont 0, Event.rprintf msgConstructed,
                 Event.rprintf msgWillCall, Event.rprintf msgDestructed],
         R_PPStackTop := 4, nextToken := 1, conts := [] })) :=
  ⟨⟨rfl, rfl, (native_fault_reported
      (try_block (throwing (CppException.std_exception "bad alloc"))) Host.init _ _
      rfl rfl).1⟩,
   ⟨rfl, rfl, (native_fault_reported
      (try_block (throwing (CppException.non_std 42))) Host.init _ _ rfl rfl).1⟩⟩

/-- C8 at a concrete input: the inner callable is `function() stop("boom")`. -/
theorem nested_unwind_witness :
    stopping "boom" (stateAtCall (stateAtCall Host.init)) =
        (.longjmp (Jump.error "boom"), stateAtCall (stateAtCall Host.init))
    ∧ (stateAtCall (stateAtCall Host.init)).log =
        (stateAtCall (stateAtCall Host.init)).log ++ []
    ∧ call_R_fun_w_unwind_protect (call_R_fun_w_unwind_protect (stopping "boom")) Host.init =
        (.longjmp (Jump.error "boom"),
         { log := [Event.makeUnwindCont 0, Event.rprintf msgConstructed,
                   Event.rprintf msgWillCall,
                   Event.makeUnwindCont 1, Event.rprintf msgConstructed,
                   Event.rprintf msgWillCall,
                   Event.rprintf msgConverting, Event.rprintf msgDestructed,
                   Event.continueUnwind (SEXP.unwindCont 1),
                   Event.rprintf msgConverting, Event.rprintf msgDestructed,
                   Event.continueUnwind (SEXP.unwindCont 0)],
           R_PPStackTop := 1, nextToken := 2,
           conts := [(0, Jump.error "boom"), (1, Jump.error "boom")] }) :=
  ⟨rfl, by simp, by
    rw [(nested_unwind (stopping "boom") Host.init (stateAtCall (stateAtCall Host.init))
      (Jump.error "boom") [] rfl (by simp)).1]
    rfl⟩

/-- C10 as stated fails: after `function() stop("boom")` the coordinator has
left through `R_ContinueUnwind` with the protection stack one entry deeper
than it found it. -/
theorem token_release_counterexample :
    (call_R_fun_w_unwind_protect (stopping "boom") Host.init).1 =
        .longjmp (Jump.error "boom")
    ∧ Host.init.R_PPStackTop = 0
    ∧ (call_R_fun_w_unwind_protect (stopping "boom") Host.init).2.R_PPStackTop = 1
    ∧ (call_R_fun_w_unwind_protect (stopping "boom") Host.init).2.R_PPStackTop ≠
        Host.init.R_PPStackTop := by
  decide

/-- C10 as amended, at concrete inputs: a returning, a stopping and a
throwing callable from the initial host state. -/
theorem token_release_paths_witness :
    returning (SEXP.value 7) (stateAtCall Host.init) =
        (.ok (SEXP.value 7), stateAtCall Host.init)
    ∧ stopping "boom" (stateAtCall Host.init) =
        (.longjmp (Jump.error "boom"), stateAtCall Host.init)
    ∧ throwing (CppException.std_exception "bad alloc") (stateAtCall Host.init) =
        (.cpp_exception (CppException.std_exception "bad alloc"), stateAtCall Host.init)
    ∧ (call_R_fun_w_unwind_protect (returning (SEXP.value 7)) Host.init).2.R_PPStackTop = 0
    ∧ (call_R_fun_w_unwind_protect (stopping "boom") Host.init).2.R_PPStackTop = 1
    ∧ (call_R_fun_w_unwind_protect (throwing (CppException.std_exception "bad alloc"))
        Host.init).2.R_PPStackTop = 4 :=
  ⟨rfl, rfl, rfl,
   (token_release_paths Host.init (returning (SEXP.value 7)) (stopping "boom")
      (throwing (CppException.std_exception "bad alloc")) (SEXP.value 7) (Jump.error "boom")
      "bad alloc" _ _ _ rfl rfl rfl rfl).2⟩

end UnwindProtect
